import Mathlib

/-!
# Verification of the Accounts Reports pipeline (`Reports.tsx`)

Shallow embedding of the reporting pipeline of
`src/kyaari-oms/src/dashboards/accounts/pages/Reports.tsx`:
row normalization (`computeDaysOld`), the per-dataset filter functions
(`filteredPaymentAging`, `filteredCompliance`, `filteredSLABreaches`),
the pagination calculations, the summary-metric computation
(`summaryMetrics`), the CSV export (`toCSV` / `escapeCSV`), and the
component's state transitions (filter/page setters, the page-reset
effects, and the fetch-completion handlers).

Modelling conventions:
* JS strings are `String` (for filter slots and record text) or
  `List Char` (for the CSV serializer, where character-level reasoning
  is needed); JS numbers coming from the API are `ℚ`.
* JS `NaN` produced by date arithmetic is `Option`: `none` is `NaN`,
  and every JS operation that propagates `NaN` maps `none` to `none`.
* Date parsing (`new Date(s).getTime()`) is a JS runtime builtin, so it
  is a parameter `parse : String → Option Int` (milliseconds since the
  epoch, `none` for an Invalid Date).
* React state is an explicit `ReportsState` record; a user interaction
  or fetch completion is an event, and one `step` applies the state
  update together with the `useEffect` passes that React runs before
  the next page is rendered.
-/

/-! ## JS string helpers -/

/-- `needle` occurs at the start of `hay` (character lists). -/
def startsWithChars : List Char → List Char → Bool
  | _, [] => true
  | [], _ :: _ => false
  | a :: as, b :: bs => a = b && startsWithChars as bs

/-- `needle` occurs somewhere inside `hay`: JS `String.prototype.includes`. -/
def hasSubChars : List Char → List Char → Bool
  | [], needle => needle.isEmpty
  | h :: t, needle => startsWithChars (h :: t) needle || hasSubChars t needle

/-- JS `s.toLowerCase()` (ASCII-faithful model). -/
def jsToLowerCase (s : String) : String :=
  ⟨s.data.map Char.toLower⟩

/-- JS `s.includes(sub)`. -/
def jsIncludes (s sub : String) : Bool :=
  hasSubChars s.data sub.data

/-! ## Data model (`Reports.tsx` lines 17–38) -/

/-- `PaymentAgingRecord`; `oldestInvoiceDays` is `Option Int` because
`computeDaysOld` can produce JS `NaN` (modelled as `none`). -/
structure PaymentAgingRecord where
  vendor : String
  outstandingAmount : ℚ
  avgDaysPending : ℚ
  oldestInvoiceDate : String
  oldestInvoiceDays : Option Int
  deriving DecidableEq

structure ComplianceRecord where
  vendor : String
  totalInvoices : ℚ
  compliantPercentage : ℚ
  issuesFound : ℚ
  deriving DecidableEq

structure SLABreachRecord where
  slaType : String
  breachCount : ℚ
  avgDelayDays : ℚ
  deriving DecidableEq

/-! ## Row normalizer (`computeDaysOld`, lines 41–46)

JS source:
`if (!isoDate) return 0` — `null` and the empty string are falsy;
`const ms = Date.now() - d.getTime()` — `NaN` for an Invalid Date;
`Math.max(0, Math.floor(ms / 86400000))` — `Math.floor(NaN) = NaN` and
`Math.max(0, NaN) = NaN`, so an unparseable date yields `NaN` (`none`),
while a parseable date yields `max 0 (floor (ms / 86400000))`. -/
def computeDaysOld (parse : String → Option Int) (now : Int)
    (isoDate : Option String) : Option Int :=
  match isoDate with
  | none => some 0
  | some s =>
    if s = "" then some 0
    else
      match parse s with
      | none => none
      | some t => some (max 0 (Int.fdiv (now - t) 86400000))

/-! ## Raw API response shapes (§6 of the spec; `paymentsApi` consumers
in lines 186–270). `Option` on a field models an absent/`null`/
`undefined` value reached through JS optional chaining `?.`. -/

structure RawAgingRecord where
  vendorName : String
  outstandingAmount : ℚ
  avgPendingDays : ℚ
  oldestInvoiceDate : Option String

structure AgingResponse where
  data : Option (List RawAgingRecord)

structure ComplianceVendor where
  vendor : String
  totalInvoices : ℚ
  compliantPercentage : ℚ
  issuesFound : ℚ

structure ComplianceData where
  vendors : Option (List ComplianceVendor)
  overallComplianceRate : Option ℚ

structure ComplianceResponse where
  data : Option ComplianceData

structure SlaItem where
  slaType : String
  breachCount : ℚ
  avgDelayDays : ℚ

structure SlaData where
  items : Option (List SlaItem)
  totalBreaches : Option ℚ
  avgDelayAcrossAll : Option ℚ

structure SlaResponse where
  data : Option SlaData

structure SummaryData where
  released : Option ℚ
  pending : Option ℚ

structure SummaryResponse where
  data : Option SummaryData

/-- JS `x || 0` on a possibly-absent numeric field. -/
def orZero : Option ℚ → ℚ
  | none => 0
  | some v => v

/-- Normalization of one raw aging record (lines 193–202):
`vendor: r.vendorName`, `oldestInvoiceDate: r.oldestInvoiceDate || ''`,
`oldestInvoiceDays: computeDaysOld(r.oldestInvoiceDate)`. -/
def normalizeAgingRecord (parse : String → Option Int) (now : Int)
    (r : RawAgingRecord) : PaymentAgingRecord :=
  { vendor := r.vendorName
    outstandingAmount := r.outstandingAmount
    avgDaysPending := r.avgPendingDays
    oldestInvoiceDate := r.oldestInvoiceDate.getD ""
    oldestInvoiceDays := computeDaysOld parse now r.oldestInvoiceDate }

/-! ## Filter engine (lines 286–359) -/

/-- The aging status-bucket predicate (lines 296–301). -/
def agingStatusPred (statusFilter : String) (item : PaymentAgingRecord) : Bool :=
  if statusFilter = "overdue" then decide (30 < item.avgDaysPending)
  else if statusFilter = "warning" then
    decide (15 < item.avgDaysPending) && decide (item.avgDaysPending ≤ 30)
  else if statusFilter = "good" then decide (item.avgDaysPending ≤ 15)
  else true

/-- The aging vendor text predicate (line 291):
`item.vendor.toLowerCase().includes(agingVendorFilter.toLowerCase())`. -/
def agingVendorPred (vendorFilter : String) (item : PaymentAgingRecord) : Bool :=
  jsIncludes (jsToLowerCase item.vendor) (jsToLowerCase vendorFilter)

/-- `filteredPaymentAging` (lines 286–305): the vendor stage runs only
when the filter string is truthy (non-empty); the status stage only when
the slot is not `'all'`. -/
def filteredPaymentAging (vendorFilter statusFilter : String)
    (agingData : List PaymentAgingRecord) : List PaymentAgingRecord :=
  let filtered := agingData
  let filtered :=
    if vendorFilter = "" then filtered
    else filtered.filter (agingVendorPred vendorFilter)
  let filtered :=
    if statusFilter = "all" then filtered
    else filtered.filter (agingStatusPred statusFilter)
  filtered

/-- The compliance level-bucket predicate (lines 318–323). -/
def complianceLevelPred (levelFilter : String) (item : ComplianceRecord) : Bool :=
  if levelFilter = "high" then decide (95 ≤ item.compliantPercentage)
  else if levelFilter = "medium" then
    decide (85 ≤ item.compliantPercentage) && decide (item.compliantPercentage < 95)
  else if levelFilter = "low" then decide (item.compliantPercentage < 85)
  else true

/-- The compliance vendor text predicate (line 313). -/
def complianceVendorPred (vendorFilter : String) (item : ComplianceRecord) : Bool :=
  jsIncludes (jsToLowerCase item.vendor) (jsToLowerCase vendorFilter)

/-- `filteredCompliance` (lines 308–327). -/
def filteredCompliance (vendorFilter levelFilter : String)
    (complianceData : List ComplianceRecord) : List ComplianceRecord :=
  let filtered := complianceData
  let filtered :=
    if vendorFilter = "" then filtered
    else filtered.filter (complianceVendorPred vendorFilter)
  let filtered :=
    if levelFilter = "all" then filtered
    else filtered.filter (complianceLevelPred levelFilter)
  filtered

/-- The SLA breach-count severity predicate (lines 340–345). -/
def slaBreachPred (severity : String) (item : SLABreachRecord) : Bool :=
  if severity = "high" then decide (12 ≤ item.breachCount)
  else if severity = "medium" then
    decide (8 ≤ item.breachCount) && decide (item.breachCount < 12)
  else if severity = "low" then decide (item.breachCount < 8)
  else true

/-- The SLA delay severity predicate (lines 350–355). -/
def slaDelayPred (severity : String) (item : SLABreachRecord) : Bool :=
  if severity = "critical" then decide (5 < item.avgDelayDays)
  else if severity = "moderate" then
    decide (3 < item.avgDelayDays) && decide (item.avgDelayDays ≤ 5)
  else if severity = "minor" then decide (item.avgDelayDays ≤ 3)
  else true

/-- `filteredSLABreaches` (lines 330–359). -/
def filteredSLABreaches (typeFilter breachSeverity delaySeverity : String)
    (slaBreachData : List SLABreachRecord) : List SLABreachRecord :=
  let filtered := slaBreachData
  let filtered :=
    if typeFilter = "all" then filtered
    else filtered.filter (fun item => decide (item.slaType = typeFilter))
  let filtered :=
    if breachSeverity = "all" then filtered
    else filtered.filter (slaBreachPred breachSeverity)
  let filtered :=
    if delaySeverity = "all" then filtered
    else filtered.filter (slaDelayPred delaySeverity)
  filtered

/-- Spec-side combined predicate for the aging table, following the
spec's wording: "rows satisfying *all* active slots (logical AND across
slots; a slot set to its neutral value imposes no constraint)". -/
def agingRowPasses (vendorFilter statusFilter : String)
    (item : PaymentAgingRecord) : Bool :=
  (decide (vendorFilter = "") || agingVendorPred vendorFilter item) &&
  (decide (statusFilter = "all") || agingStatusPred statusFilter item)

/-- Spec-side combined predicate for the compliance table (spec §4.2). -/
def complianceRowPasses (vendorFilter levelFilter : String)
    (item : ComplianceRecord) : Bool :=
  (decide (vendorFilter = "") || complianceVendorPred vendorFilter item) &&
  (decide (levelFilter = "all") || complianceLevelPred levelFilter item)

/-- Spec-side combined predicate for the SLA table (spec §4.2). -/
def slaRowPasses (typeFilter breachSeverity delaySeverity : String)
    (item : SLABreachRecord) : Bool :=
  (decide (typeFilter = "all") || decide (item.slaType = typeFilter)) &&
  (decide (breachSeverity = "all") || slaBreachPred breachSeverity item) &&
  (decide (delaySeverity = "all") || slaDelayPred delaySeverity item)

/-! ## Pagination controller (lines 362–377) -/

/-- `itemsPerPage = 10` (line 184). -/
def itemsPerPage : Nat := 10

/-- JS `Array.prototype.slice(start, end)` for non-negative indices. -/
def jsSlice (l : List PaymentAgingRecord) (start stop : Nat) :
    List PaymentAgingRecord :=
  (l.take stop).drop start

/-- `agingTotalPages = Math.ceil(filtered.length / itemsPerPage)` (line 362). -/
def agingTotalPages (filteredLen : Nat) : Int :=
  Int.ceil ((filteredLen : ℚ) / (itemsPerPage : ℚ))

/-- `agingStartIndex = (agingCurrentPage - 1) * itemsPerPage` (line 363). -/
def agingStartIndex (page : Nat) : Nat :=
  (page - 1) * itemsPerPage

/-- `agingEndIndex = Math.min(start + itemsPerPage, filtered.length)` (line 364). -/
def agingEndIndex (page len : Nat) : Nat :=
  min (agingStartIndex page + itemsPerPage) len

/-- `paginatedPaymentAging = filtered.slice(start, end)` (line 365). -/
def paginatedPaymentAging (page : Nat)
    (filtered : List PaymentAgingRecord) : List PaymentAgingRecord :=
  jsSlice filtered (agingStartIndex page) (agingEndIndex page filtered.length)

/-! ## Aggregation calculator (`summaryMetrics`, lines 272–283) -/

structure SummaryMetrics where
  totalOutstanding : ℚ
  avgCompliance : ℚ
  totalBreaches : ℚ
  paymentsReleased : ℚ
  pendingPayments : ℚ
  deriving DecidableEq

/-- `summaryMetrics` (lines 272–283): the outstanding total is a
`reduce` over all aging rows; the other figures are passed through from
source-level summary state. -/
def summaryMetrics (agingData : List PaymentAgingRecord)
    (overallCompliance totalSlaBreaches paymentsReleased pendingPayments : ℚ) :
    SummaryMetrics :=
  { totalOutstanding :=
      agingData.foldl (fun sum item => sum + item.outstandingAmount) 0
    avgCompliance := overallCompliance
    totalBreaches := totalSlaBreaches
    paymentsReleased := paymentsReleased
    pendingPayments := pendingPayments }

/-! ## Export serializer (`toCSV` / `escapeCSV`, lines 67–87)

The serializer is generic over `Record<string, unknown>` rows.  A JS
string is modelled as a `List Char`; a cell of a row is
`(key, Option (List Char))` where `none` models a `null` value, and a
key missing from the row models `undefined`. -/

/-- A CSV row: a JS object as an association list. -/
abbrev CsvRow := List (List Char × Option (List Char))

/-- `val === undefined || val === null ? '' : String(val)` (line 73)
applied to the JS lookup `row[h]`. -/
def jsStringOfCell : Option (Option (List Char)) → List Char
  | none => []
  | some none => []
  | some (some s) => s

/-- `s.replace(/"/g, '""')` (line 75): double every quote character. -/
def doubleQuotes (s : List Char) : List Char :=
  s.flatMap fun c => if c = '"' then ['"', '"'] else [c]

/-- `escapeCSV` (lines 72–77): wrap in quotes, doubling embedded
quotes, exactly when the value contains the delimiter, a quote, or a
newline. -/
def escapeCSV (s : List Char) : List Char :=
  if s.contains ',' || s.contains '"' || s.contains '\n'
  then '"' :: (doubleQuotes s ++ ['"'])
  else s

/-- One line of escaped cells joined by the delimiter — the shape both
the header line (for clean headers) and every record line take. -/
def csvLine (cells : List (List Char)) : List Char :=
  List.intercalate [','] (cells.map escapeCSV)

/-- First-seen-order deduplication: `Array.from(new Set(...))`. -/
def dedupFirstAux : List (List Char) → List (List Char) → List (List Char)
  | _, [] => []
  | seen, a :: as =>
    if a ∈ seen then dedupFirstAux seen as
    else a :: dedupFirstAux (a :: seen) as

/-- `Array.from(new Set(rows.flatMap(r => Object.keys(r))))` (line 71). -/
def unionKeys (rows : List CsvRow) : List (List Char) :=
  dedupFirstAux [] (rows.flatMap fun r => r.map Prod.fst)

/-- The header list used by `toCSV` (lines 69–71): the caller-supplied
order when non-empty, otherwise the first-seen union of row keys. -/
def csvHeaders (rows : List CsvRow) (headerOrder : List (List Char)) :
    List (List Char) :=
  if headerOrder.isEmpty then unionKeys rows else headerOrder

/-- One serialized record line:
`headers.map(h => escapeCSV(row[h])).join(',')` (lines 80–84). -/
def csvRecordLine (headers : List (List Char)) (row : CsvRow) : List Char :=
  List.intercalate [','] (headers.map fun h => escapeCSV (jsStringOfCell (row.lookup h)))

/-- `toCSV` (lines 67–87): empty string for an empty row list;
otherwise the raw (unescaped) header line followed by one record line
per row, all joined by newlines. -/
def toCSV (rows : List CsvRow) (headerOrder : List (List Char)) : List Char :=
  if rows.isEmpty then []
  else
    let headers := csvHeaders rows headerOrder
    List.intercalate ['\n']
      ((List.intercalate [','] headers) :: rows.map (csvRecordLine headers))

/-! ## CSV parser

Modelled from the spec: "re-parsing with the same delimiter/quote
rules" (§8, delimited-text round-trip).  No parser exists in the
source; this is the inverse reading of the §4.5 serialization rules: a
field either is raw (ends at a delimiter or newline) or starts with a
quote and runs to the matching closing quote, with a doubled quote
standing for one literal quote. -/
def parseCSVAux : Bool → List Char → List Char → List (List Char) →
    List (List (List Char))
  | false, [], field, record => [record ++ [field]]
  | false, c :: cs, field, record =>
    if c = ',' then parseCSVAux false cs [] (record ++ [field])
    else if c = '\n' then (record ++ [field]) :: parseCSVAux false cs [] []
    else if c = '"' && field.isEmpty then parseCSVAux true cs field record
    else parseCSVAux false cs (field ++ [c]) record
  | true, [], field, record => [record ++ [field]]
  | true, '"' :: '"' :: cs2, field, record =>
    parseCSVAux true cs2 (field ++ ['"']) record
  | true, '"' :: cs, field, record => parseCSVAux false cs field record
  | true, c :: cs, field, record => parseCSVAux true cs (field ++ [c]) record
termination_by _ cs _ _ => cs.length
decreasing_by all_goals (simp only [List.length_cons]; omega)

/-- Modelled from the spec: parse a whole delimited-text document into
its records of field values. -/
def parseCSV (cs : List Char) : List (List (List Char)) :=
  parseCSVAux false cs [] []

/-- The stringified field values of one row in header order — what the
spec's round-trip law says re-parsing must reconstruct. -/
def rowCells (headers : List (List Char)) (row : CsvRow) : List (List Char) :=
  headers.map fun h => jsStringOfCell (row.lookup h)

/-! ## Component state and transitions (lines 157–270, 380–390) -/

/-- The `useState` cells of `AccountsReports` that the claims concern.
`loading` is the single flag of line 159, shared by all three tables. -/
structure ReportsState where
  timeRange : String
  loading : Bool
  agingVendorFilter : String
  agingStatusFilter : String
  agingData : List PaymentAgingRecord
  complianceVendorFilter : String
  complianceFilter : String
  complianceData : List ComplianceRecord
  overallCompliance : ℚ
  slaTypeFilter : String
  slaBreachSeverity : String
  slaDelaySeverity : String
  slaBreachData : List SLABreachRecord
  totalSlaBreaches : ℚ
  avgDelayAcrossAll : ℚ
  agingCurrentPage : Nat
  complianceCurrentPage : Nat
  slaCurrentPage : Nat
  paymentsReleased : ℚ
  pendingPayments : ℚ
  deriving DecidableEq

/-- The initial values of the `useState` hooks (lines 157–184, 257–258). -/
def initialState : ReportsState :=
  { timeRange := "weekly"
    loading := false
    agingVendorFilter := ""
    agingStatusFilter := "all"
    agingData := []
    complianceVendorFilter := ""
    complianceFilter := "all"
    complianceData := []
    overallCompliance := 0
    slaTypeFilter := "all"
    slaBreachSeverity := "all"
    slaDelaySeverity := "all"
    slaBreachData := []
    totalSlaBreaches := 0
    avgDelayAcrossAll := 0
    agingCurrentPage := 1
    complianceCurrentPage := 1
    slaCurrentPage := 1
    paymentsReleased := 0
    pendingPayments := 0 }

/-- A user interaction relevant to the claims: one filter-slot setter
or one page-navigation request. -/
inductive UserEvent where
  | setAgingVendor (v : String)
  | setAgingStatus (v : String)
  | setComplianceVendor (v : String)
  | setComplianceLevel (v : String)
  | setSlaType (v : String)
  | setSlaBreachSev (v : String)
  | setSlaDelaySev (v : String)
  | setAgingPage (n : Nat)
  | setCompliancePage (n : Nat)
  | setSlaPage (n : Nat)

/-- The raw `setState` of one user event (the `onChange`/`onPageChange`
handlers in the view markup). -/
def applyUserEvent (e : UserEvent) (s : ReportsState) : ReportsState :=
  match e with
  | .setAgingVendor v => { s with agingVendorFilter := v }
  | .setAgingStatus v => { s with agingStatusFilter := v }
  | .setComplianceVendor v => { s with complianceVendorFilter := v }
  | .setComplianceLevel v => { s with complianceFilter := v }
  | .setSlaType v => { s with slaTypeFilter := v }
  | .setSlaBreachSev v => { s with slaBreachSeverity := v }
  | .setSlaDelaySev v => { s with slaDelaySeverity := v }
  | .setAgingPage n => { s with agingCurrentPage := n }
  | .setCompliancePage n => { s with complianceCurrentPage := n }
  | .setSlaPage n => { s with slaCurrentPage := n }

/-- The `useEffect` of lines 380–382: `setAgingCurrentPage(1)` whenever
a dependency (`agingVendorFilter`, `agingStatusFilter`) changed. -/
def resetAgingPageEffect (prev next : ReportsState) : ReportsState :=
  if prev.agingVendorFilter = next.agingVendorFilter ∧
     prev.agingStatusFilter = next.agingStatusFilter
  then next else { next with agingCurrentPage := 1 }

/-- The `useEffect` of lines 384–386 for the compliance table. -/
def resetCompliancePageEffect (prev next : ReportsState) : ReportsState :=
  if prev.complianceVendorFilter = next.complianceVendorFilter ∧
     prev.complianceFilter = next.complianceFilter
  then next else { next with complianceCurrentPage := 1 }

/-- The `useEffect` of lines 388–390 for the SLA table. -/
def resetSlaPageEffect (prev next : ReportsState) : ReportsState :=
  if prev.slaTypeFilter = next.slaTypeFilter ∧
     prev.slaBreachSeverity = next.slaBreachSeverity ∧
     prev.slaDelaySeverity = next.slaDelaySeverity
  then next else { next with slaCurrentPage := 1 }

/-- All three page-reset effects, run against the previous render's
dependency values. -/
def applyEffects (prev next : ReportsState) : ReportsState :=
  resetSlaPageEffect prev (resetCompliancePageEffect prev (resetAgingPageEffect prev next))

/-- One user event followed by the effect pass React runs before the
next page of rows is read. -/
def stepUser (e : UserEvent) (s : ReportsState) : ReportsState :=
  applyEffects s (applyUserEvent e s)

/-- The completion (or start) of one dataset's asynchronous fetch
(lines 186–270).  `Success resp` is a fulfilled promise (`resp = none`
models a nullish payload reached through `resp?.`); the failure events
are rejected promises. -/
inductive FetchEvent where
  | agingStart
  | agingSuccess (resp : Option AgingResponse)
  | agingFailure
  | complianceStart
  | complianceSuccess (resp : Option ComplianceResponse)
  | complianceFailure
  | slaStart
  | slaSuccess (resp : Option SlaResponse)
  | slaFailure
  | summarySuccess (resp : Option SummaryResponse)
  | summaryFailure

/-- The fetch handlers, one per event: the three table fetches set the
shared `loading` flag on start, commit their rows on fulfilment, and
stop `loading` in `.finally`; a rejected table fetch has no `.catch`
(only `.finally`), so it changes nothing but `loading`; the summary
fetch (lines 260–270) has `.catch(() => {})` and no `.finally`. -/
def stepFetch (parse : String → Option Int) (now : Int)
    (e : FetchEvent) (s : ReportsState) : ReportsState :=
  match e with
  | .agingStart => { s with loading := true }
  | .agingSuccess resp =>
    { s with
      agingData :=
        ((resp.bind AgingResponse.data).getD []).map (normalizeAgingRecord parse now)
      loading := false }
  | .agingFailure => { s with loading := false }
  | .complianceStart => { s with loading := true }
  | .complianceSuccess resp =>
    { s with
      complianceData :=
        (((resp.bind ComplianceResponse.data).bind ComplianceData.vendors).getD []).map
          (fun v =>
            { vendor := v.vendor
              totalInvoices := v.totalInvoices
              compliantPercentage := v.compliantPercentage
              issuesFound := v.issuesFound })
      overallCompliance :=
        orZero ((resp.bind ComplianceResponse.data).bind ComplianceData.overallComplianceRate)
      loading := false }
  | .complianceFailure => { s with loading := false }
  | .slaStart => { s with loading := true }
  | .slaSuccess resp =>
    { s with
      slaBreachData :=
        (((resp.bind SlaResponse.data).bind SlaData.items).getD []).map
          (fun item =>
            { slaType := item.slaType
              breachCount := item.breachCount
              avgDelayDays := item.avgDelayDays })
      totalSlaBreaches :=
        orZero ((resp.bind SlaResponse.data).bind SlaData.totalBreaches)
      avgDelayAcrossAll :=
        orZero ((resp.bind SlaResponse.data).bind SlaData.avgDelayAcrossAll)
      loading := false }
  | .slaFailure => { s with loading := false }
  | .summarySuccess resp =>
    { s with
      paymentsReleased := orZero ((resp.bind SummaryResponse.data).bind SummaryData.released)
      pendingPayments := orZero ((resp.bind SummaryResponse.data).bind SummaryData.pending) }
  | .summaryFailure => s

/-- The summary metrics as derived from the component state
(`useMemo`, lines 272–283). -/
def summaryMetricsOf (s : ReportsState) : SummaryMetrics :=
  summaryMetrics s.agingData s.overallCompliance s.totalSlaBreaches
    s.paymentsReleased s.pendingPayments

/-- The seven filter slots of the three tables, as one tuple. -/
def filtersOf (s : ReportsState) :
    String × String × String × String × String × String × String :=
  (s.agingVendorFilter, s.agingStatusFilter, s.complianceVendorFilter,
   s.complianceFilter, s.slaTypeFilter, s.slaBreachSeverity, s.slaDelaySeverity)

/-- The three pagination cursors, as one tuple. -/
def pagesOf (s : ReportsState) : Nat × Nat × Nat :=
  (s.agingCurrentPage, s.complianceCurrentPage, s.slaCurrentPage)

/-- What the SLA table's loading indicator renders (lines 1159–1163):
the shared `loading` flag. -/
def slaLoadingIndicator (s : ReportsState) : Bool :=
  s.loading

/-! ## Helper lemmas -/

theorem foldl_add_eq_sum {α : Type} (f : α → ℚ) (l : List α) (a : ℚ) :
    l.foldl (fun sum x => sum + f x) a = a + (l.map f).sum := by
  induction l generalizing a with
  | nil => simp
  | cons x xs ih => simp [ih, add_assoc]

theorem agingStatusPred_overdue_eq (item : PaymentAgingRecord) :
    agingStatusPred ("overdue") item = decide (30 < item.avgDaysPending) := by
  simp [agingStatusPred]

theorem agingStatusPred_warning_eq (item : PaymentAgingRecord) :
    agingStatusPred ("warning") item =
      (decide (15 < item.avgDaysPending) && decide (item.avgDaysPending ≤ 30)) := by
  simp [agingStatusPred]

theorem agingStatusPred_good_eq (item : PaymentAgingRecord) :
    agingStatusPred ("good") item = decide (item.avgDaysPending ≤ 15) := by
  simp [agingStatusPred]

/-! ## Claim C1 -/

/-- Counterexample to the claim C1 as stated: on an unparseable
non-empty date string the source computes `Math.max(0, Math.floor(NaN))
= NaN` (modelled `none`), not `0`, so `oldestInvoiceDays` is not a
non-negative number there. -/
theorem computeDaysOld_unparseable_counterexample :
    computeDaysOld (fun _ => none) 0 (some ("not-a-date")) = none ∧
    computeDaysOld (fun _ => none) 0 (some ("not-a-date")) ≠ some 0 := by
  constructor
  · rfl
  · simp [computeDaysOld]

/-- Claim C1 (amended): `computeDaysOld` returns `0` for an absent
(null or empty) date; for a parseable date it returns
`max 0 (floor ((now - parsedDate) / 86400000 ms))`; for an unparseable
non-empty date it returns JS `NaN` (`none`) rather than `0`; and
whenever the result is a number it is non-negative. -/
theorem computeDaysOld_spec (parse : String → Option Int) (now : Int) :
    computeDaysOld parse now none = some 0 ∧
    computeDaysOld parse now (some ("")) = some 0 ∧
    (∀ s t, s ≠ "" → parse s = some t →
      computeDaysOld parse now (some s) =
        some (max 0 (Int.fdiv (now - t) 86400000))) ∧
    (∀ s, s ≠ "" → parse s = none → computeDaysOld parse now (some s) = none) ∧
    (∀ s d, computeDaysOld parse now (some s) = some d → 0 ≤ d) := by
  refine ⟨rfl, by simp [computeDaysOld], ?_, ?_, ?_⟩
  · intro s t hs hp
    simp [computeDaysOld, hs, hp]
  · intro s hs hp
    simp [computeDaysOld, hs, hp]
  · intro s d h
    by_cases hs : s = ""
    · simp [computeDaysOld, hs] at h
      omega
    · rcases hparse : parse s with _ | t
      · simp [computeDaysOld, hs, hparse] at h
      · simp [computeDaysOld, hs, hparse] at h
        omega

/-- Witness for `computeDaysOld_spec` at a concrete parseable date. -/
theorem computeDaysOld_spec_witness :
    ("2024-01-01" ≠ "" ∧
      (fun s => if s = "2024-01-01" then some (0 : Int) else none) ("2024-01-01") =
        some 0) ∧
    computeDaysOld (fun s => if s = "2024-01-01" then some (0 : Int) else none)
        259200000 (some ("2024-01-01")) =
      some (max 0 (Int.fdiv (259200000 - 0) 86400000)) :=
  ⟨⟨by decide, by decide⟩,
    (computeDaysOld_spec _ 259200000).2.2.1 ("2024-01-01") 0 (by decide) (by decide)⟩

/-! ## Claim C2 -/

/-- Claim C2 (confirmed): the three aging status buckets partition the
rationals — on every aging row exactly one of the `overdue`, `warning`,
`good` predicates of the status filter holds, and a row with
`avgDaysPending = 30` satisfies `warning` and not `overdue`. -/
theorem aging_status_buckets_partition :
    (∀ item : PaymentAgingRecord,
      (agingStatusPred ("overdue") item = true ∧
        agingStatusPred ("warning") item = false ∧
        agingStatusPred ("good") item = false) ∨
      (agingStatusPred ("overdue") item = false ∧
        agingStatusPred ("warning") item = true ∧
        agingStatusPred ("good") item = false) ∨
      (agingStatusPred ("overdue") item = false ∧
        agingStatusPred ("warning") item = false ∧
        agingStatusPred ("good") item = true)) ∧
    (∀ item : PaymentAgingRecord, item.avgDaysPending = 30 →
      agingStatusPred ("warning") item = true ∧
      agingStatusPred ("overdue") item = false) := by
  constructor
  · intro item
    rcases le_or_lt item.avgDaysPending 15 with h1 | h1
    · right; right
      have h2 : ¬(30 : ℚ) < item.avgDaysPending := by linarith
      have h3 : ¬(15 : ℚ) < item.avgDaysPending := not_lt.mpr h1
      simp [agingStatusPred_overdue_eq, agingStatusPred_warning_eq,
        agingStatusPred_good_eq, h1, h2, h3]
    · rcases le_or_lt item.avgDaysPending 30 with h2 | h2
      · right; left
        have h3 : ¬(30 : ℚ) < item.avgDaysPending := not_lt.mpr h2
        have h4 : ¬item.avgDaysPending ≤ (15 : ℚ) := not_le.mpr h1
        simp [agingStatusPred_overdue_eq, agingStatusPred_warning_eq,
          agingStatusPred_good_eq, h1, h2, h3, h4]
      · left
        have h3 : ¬item.avgDaysPending ≤ (30 : ℚ) := not_le.mpr h2
        have h4 : ¬item.avgDaysPending ≤ (15 : ℚ) := by
          intro h; linarith
        simp [agingStatusPred_overdue_eq, agingStatusPred_warning_eq,
          agingStatusPred_good_eq, h2, h3, h4]
  · intro item h
    constructor
    · simp [agingStatusPred_warning_eq, h]
      norm_num
    · simp [agingStatusPred_overdue_eq, h]

/-- Witness for `aging_status_buckets_partition` at a concrete row with
`avgDaysPending = 30`. -/
theorem aging_status_buckets_partition_witness :
    (({ vendor := "v", outstandingAmount := 0, avgDaysPending := 30,
        oldestInvoiceDate := "", oldestInvoiceDays := some 0 } :
          PaymentAgingRecord).avgDaysPending = 30) ∧
    (agingStatusPred ("warning")
        { vendor := "v", outstandingAmount := 0, avgDaysPending := 30,
          oldestInvoiceDate := "", oldestInvoiceDays := some 0 } = true ∧
      agingStatusPred ("overdue")
        { vendor := "v", outstandingAmount := 0, avgDaysPending := 30,
          oldestInvoiceDate := "", oldestInvoiceDays := some 0 } = false) :=
  ⟨rfl, aging_status_buckets_partition.2 _ rfl⟩

/-! ## Claim C3 -/

/-- Claim C3 (confirmed): changing any filter slot (to a new value)
forces the owning dataset's current page back to 1 in the effect pass
that runs before the next visible page is read, while a page-navigation
event leaves all seven filter slots untouched. -/
theorem filter_change_resets_page (s : ReportsState) (v : String) (n : Nat) :
    (v ≠ s.agingVendorFilter →
      (stepUser (.setAgingVendor v) s).agingCurrentPage = 1) ∧
    (v ≠ s.agingStatusFilter →
      (stepUser (.setAgingStatus v) s).agingCurrentPage = 1) ∧
    (v ≠ s.complianceVendorFilter →
      (stepUser (.setComplianceVendor v) s).complianceCurrentPage = 1) ∧
    (v ≠ s.complianceFilter →
      (stepUser (.setComplianceLevel v) s).complianceCurrentPage = 1) ∧
    (v ≠ s.slaTypeFilter →
      (stepUser (.setSlaType v) s).slaCurrentPage = 1) ∧
    (v ≠ s.slaBreachSeverity →
      (stepUser (.setSlaBreachSev v) s).slaCurrentPage = 1) ∧
    (v ≠ s.slaDelaySeverity →
      (stepUser (.setSlaDelaySev v) s).slaCurrentPage = 1) ∧
    filtersOf (stepUser (.setAgingPage n) s) = filtersOf s ∧
    filtersOf (stepUser (.setCompliancePage n) s) = filtersOf s ∧
    filtersOf (stepUser (.setSlaPage n) s) = filtersOf s := by
  refine ⟨?_, ?_, ?_, ?_, ?_, ?_, ?_, ?_, ?_, ?_⟩ <;>
    first
    | (intro h
       simp [stepUser, applyUserEvent, applyEffects, resetAgingPageEffect,
         resetCompliancePageEffect, resetSlaPageEffect, filtersOf]
       split_ifs <;> simp_all)
    | (simp [stepUser, applyUserEvent, applyEffects, resetAgingPageEffect,
        resetCompliancePageEffect, resetSlaPageEffect, filtersOf])

/-- Witness for `filter_change_resets_page` from the initial state. -/
theorem filter_change_resets_page_witness :
    ("x" ≠ initialState.agingVendorFilter ∧
      (stepUser (.setAgingVendor ("x")) initialState).agingCurrentPage = 1) ∧
    filtersOf (stepUser (.setAgingPage 2) initialState) = filtersOf initialState :=
  ⟨⟨by decide, (filter_change_resets_page initialState ("x") 2).1 (by decide)⟩,
    (filter_change_resets_page initialState ("x") 2).2.2.2.2.2.2.2.1⟩

/-! ## Claim C4 -/

theorem filteredPaymentAging_eq_filter (vf sf : String)
    (l : List PaymentAgingRecord) :
    filteredPaymentAging vf sf l = l.filter (agingRowPasses vf sf) := by
  unfold filteredPaymentAging agingRowPasses
  by_cases hv : vf = "" <;> by_cases hs : sf = "all" <;>
    simp [hv, hs, List.filter_filter]
  exact List.filter_congr (fun a _ => by simp [Bool.and_comm])

theorem filteredCompliance_eq_filter (vf lf : String)
    (l : List ComplianceRecord) :
    filteredCompliance vf lf l = l.filter (complianceRowPasses vf lf) := by
  unfold filteredCompliance complianceRowPasses
  by_cases hv : vf = "" <;> by_cases hl : lf = "all" <;>
    simp [hv, hl, List.filter_filter]
  exact List.filter_congr (fun a _ => by simp [Bool.and_comm])

theorem filteredSLABreaches_eq_filter (tf bf df : String)
    (l : List SLABreachRecord) :
    filteredSLABreaches tf bf df l = l.filter (slaRowPasses tf bf df) := by
  unfold filteredSLABreaches slaRowPasses
  by_cases ht : tf = "all" <;> by_cases hb : bf = "all" <;>
    by_cases hd : df = "all" <;>
    simp [ht, hb, hd, List.filter_filter]
  all_goals
    exact List.filter_congr (fun a _ => by
      cases hx : slaDelayPred df a <;> cases hy : slaBreachPred bf a <;>
        cases hz : decide (a.slaType = tf) <;> simp_all)

/-- Claim C4 (confirmed): each dataset's filtered output equals the
single pass keeping exactly the rows that satisfy the conjunction of
all active slots (a slot at its neutral value `''`/`'all'` imposing no
constraint), it is an ordered sub-sequence of the input, and with every
slot neutral the output is the input sequence itself. -/
theorem filter_engine_conjunction
    (agingData : List PaymentAgingRecord)
    (complianceData : List ComplianceRecord)
    (slaData : List SLABreachRecord) (vf sf cvf cf tf bf df : String) :
    (filteredPaymentAging vf sf agingData =
        agingData.filter (agingRowPasses vf sf) ∧
      List.Sublist (filteredPaymentAging vf sf agingData) agingData ∧
      filteredPaymentAging ("") ("all") agingData = agingData) ∧
    (filteredCompliance cvf cf complianceData =
        complianceData.filter (complianceRowPasses cvf cf) ∧
      List.Sublist (filteredCompliance cvf cf complianceData) complianceData ∧
      filteredCompliance ("") ("all") complianceData = complianceData) ∧
    (filteredSLABreaches tf bf df slaData =
        slaData.filter (slaRowPasses tf bf df) ∧
      List.Sublist (filteredSLABreaches tf bf df slaData) slaData ∧
      filteredSLABreaches ("all") ("all") ("all") slaData = slaData) := by
  refine ⟨⟨filteredPaymentAging_eq_filter vf sf agingData, ?_, by
      simp [filteredPaymentAging]⟩,
    ⟨filteredCompliance_eq_filter cvf cf complianceData, ?_, by
      simp [filteredCompliance]⟩,
    ⟨filteredSLABreaches_eq_filter tf bf df slaData, ?_, by
      simp [filteredSLABreaches]⟩⟩
  · rw [filteredPaymentAging_eq_filter]
    exact List.filter_sublist agingData
  · rw [filteredCompliance_eq_filter]
    exact List.filter_sublist complianceData
  · rw [filteredSLABreaches_eq_filter]
    exact List.filter_sublist slaData

/-! ## Claim C5 -/

/-- Claim C5 (confirmed): for a requested page `k ≥ 1` the visible
slice is `[start, end)` with `start = (k-1)*pageSize` and
`end = min (start + pageSize) n` — equivalently `take pageSize` of
`drop start`; `totalPages` is exactly `⌈n / pageSize⌉` (so `0` when
`n = 0`); and an out-of-range start yields the empty slice without
failing. -/
theorem pagination_windowing (filtered : List PaymentAgingRecord) (k : Nat)
    (_hk : 1 ≤ k) :
    paginatedPaymentAging k filtered =
      (filtered.drop (agingStartIndex k)).take itemsPerPage ∧
    ((filtered.length : Int) ≤ (itemsPerPage : Int) * agingTotalPages filtered.length) ∧
    ((itemsPerPage : Int) * agingTotalPages filtered.length <
      (filtered.length : Int) + (itemsPerPage : Int)) ∧
    (agingTotalPages filtered.length = 0 ↔ filtered.length = 0) ∧
    (filtered.length ≤ agingStartIndex k →
      paginatedPaymentAging k filtered = []) := by
  have h10 : (0 : ℚ) < 10 := by norm_num
  refine ⟨?_, ?_, ?_, ⟨?_, ?_⟩, ?_⟩
  · unfold paginatedPaymentAging jsSlice agingEndIndex
    rw [List.drop_take]
    apply List.take_eq_take.mpr
    simp only [List.length_drop]
    have : itemsPerPage = 10 := rfl
    omega
  · have h := Int.le_ceil ((filtered.length : ℚ) / 10)
    rw [div_le_iff₀ h10] at h
    have h2 : (filtered.length : ℚ) ≤
        (10 : ℚ) * ((Int.ceil ((filtered.length : ℚ) / 10) : Int) : ℚ) := by
      linarith
    have h3 : (filtered.length : Int) ≤
        (10 : Int) * Int.ceil ((filtered.length : ℚ) / 10) := by
      exact_mod_cast h2
    simpa [agingTotalPages, itemsPerPage] using h3
  · have h := Int.ceil_lt_add_one ((filtered.length : ℚ) / 10)
    have hn : (10 : ℚ) * ((filtered.length : ℚ) / 10) = (filtered.length : ℚ) := by
      ring
    have h2 : (10 : ℚ) * ((Int.ceil ((filtered.length : ℚ) / 10) : Int) : ℚ) <
        (filtered.length : ℚ) + 10 := by
      nlinarith
    have h3 : (10 : Int) * Int.ceil ((filtered.length : ℚ) / 10) <
        (filtered.length : Int) + 10 := by
      exact_mod_cast h2
    simpa [agingTotalPages, itemsPerPage] using h3
  · intro h
    by_contra hn
    have hlen : 0 < (filtered.length : ℚ) := by
      have : 0 < filtered.length := Nat.pos_of_ne_zero hn
      exact_mod_cast this
    have hpos : 0 < (filtered.length : ℚ) / 10 := by positivity
    have hceil := Int.ceil_pos.mpr hpos
    simp only [agingTotalPages, itemsPerPage, Nat.cast_ofNat] at h
    omega
  · intro h
    simp [agingTotalPages, itemsPerPage, h]
  · intro h
    unfold paginatedPaymentAging jsSlice
    rw [List.drop_eq_nil_iff]
    simp only [List.length_take]
    have : itemsPerPage = 10 := rfl
    unfold agingEndIndex
    omega

/-- Witness for `pagination_windowing` at page 1 of an empty filtered
sequence. -/
theorem pagination_windowing_witness :
    1 ≤ 1 ∧
    (paginatedPaymentAging 1 [] = (([] : List PaymentAgingRecord).drop
        (agingStartIndex 1)).take itemsPerPage ∧
      ((([] : List PaymentAgingRecord).length : Int) ≤
        (itemsPerPage : Int) * agingTotalPages ([] : List PaymentAgingRecord).length) ∧
      ((itemsPerPage : Int) * agingTotalPages ([] : List PaymentAgingRecord).length <
        (([] : List PaymentAgingRecord).length : Int) + (itemsPerPage : Int)) ∧
      (agingTotalPages ([] : List PaymentAgingRecord).length = 0 ↔
        ([] : List PaymentAgingRecord).length = 0) ∧
      (([] : List PaymentAgingRecord).length ≤ agingStartIndex 1 →
        paginatedPaymentAging 1 [] = [])) :=
  ⟨by decide, pagination_windowing [] 1 (by decide)⟩

/-! ## Claim C8 -/

/-- Claim C8 (confirmed): the summary metrics are computed from the
unfiltered datasets and source-level summary fields only —
`totalOutstanding` is the sum of `outstandingAmount` over *all* aging
rows, compliance/breach headline numbers are passed through from the
source summaries, and no filter or page-navigation event changes any
summary metric. -/
theorem stepUser_preserves_data (e : UserEvent) (s : ReportsState) :
    (stepUser e s).agingData = s.agingData ∧
    (stepUser e s).overallCompliance = s.overallCompliance ∧
    (stepUser e s).totalSlaBreaches = s.totalSlaBreaches ∧
    (stepUser e s).paymentsReleased = s.paymentsReleased ∧
    (stepUser e s).pendingPayments = s.pendingPayments := by
  cases e <;>
    (simp only [stepUser, applyUserEvent, applyEffects, resetAgingPageEffect,
      resetCompliancePageEffect, resetSlaPageEffect]
     split_ifs <;> simp)

theorem summary_metrics_independent :
    (∀ (e : UserEvent) (s : ReportsState),
      summaryMetricsOf (stepUser e s) = summaryMetricsOf s) ∧
    (∀ s : ReportsState,
      (summaryMetricsOf s).totalOutstanding =
        (s.agingData.map PaymentAgingRecord.outstandingAmount).sum) ∧
    (∀ s : ReportsState,
      (summaryMetricsOf s).avgCompliance = s.overallCompliance) ∧
    (∀ s : ReportsState,
      (summaryMetricsOf s).totalBreaches = s.totalSlaBreaches) := by
  refine ⟨?_, ?_, fun s => rfl, fun s => rfl⟩
  · intro e s
    have h := stepUser_preserves_data e s
    simp only [summaryMetricsOf, summaryMetrics, h.1, h.2.1, h.2.2.1,
      h.2.2.2.1, h.2.2.2.2]
  · intro s
    have h := foldl_add_eq_sum PaymentAgingRecord.outstandingAmount s.agingData 0
    simpa [summaryMetricsOf, summaryMetrics] using h

/-! ## Claim C9 -/

/-- Counterexample to claim C9 as stated: a *rejected* summary fetch
runs `.catch(() => {})`, which leaves the previously fetched value in
place — here `paymentsReleased` stays `5`, it does not take the value
`0`. -/
theorem summary_failure_keeps_previous_value :
    (stepFetch (fun _ => none) 0 .summaryFailure
        (stepFetch (fun _ => none) 0
          (.summarySuccess (some ⟨some ⟨some 5, some 3⟩⟩))
          initialState)).paymentsReleased = 5 ∧
    (5 : ℚ) ≠ 0 := by
  exact ⟨rfl, by norm_num⟩

/-- Claim C9 (amended): when a fetch *fulfils* with the summary payload
or field missing, each affected metric (released, pending, overall
compliance rate, total breaches, average delay) is set to `0`; a
*rejected* summary fetch is swallowed by `.catch(() => {})` and leaves
the state unchanged (so the metrics remain `0` when no fetch ever
succeeded), and a rejected table fetch changes nothing but the shared
loading flag — no error reaches the view. -/
theorem summary_unavailable_defaults (parse : String → Option Int) (now : Int)
    (s : ReportsState) (respS : Option SummaryResponse)
    (respC : Option ComplianceResponse) (respL : Option SlaResponse) :
    ((respS.bind SummaryResponse.data).bind SummaryData.released = none →
      (stepFetch parse now (.summarySuccess respS) s).paymentsReleased = 0) ∧
    ((respS.bind SummaryResponse.data).bind SummaryData.pending = none →
      (stepFetch parse now (.summarySuccess respS) s).pendingPayments = 0) ∧
    ((respC.bind ComplianceResponse.data).bind ComplianceData.overallComplianceRate = none →
      (stepFetch parse now (.complianceSuccess respC) s).overallCompliance = 0) ∧
    ((respL.bind SlaResponse.data).bind SlaData.totalBreaches = none →
      (stepFetch parse now (.slaSuccess respL) s).totalSlaBreaches = 0) ∧
    ((respL.bind SlaResponse.data).bind SlaData.avgDelayAcrossAll = none →
      (stepFetch parse now (.slaSuccess respL) s).avgDelayAcrossAll = 0) ∧
    stepFetch parse now .summaryFailure s = s ∧
    stepFetch parse now .slaFailure s = { s with loading := false } := by
  refine ⟨?_, ?_, ?_, ?_, ?_, rfl, rfl⟩ <;>
    (intro h; simp [stepFetch, h, orZero])

/-- Witness for `summary_unavailable_defaults` at a nullish summary
response. -/
theorem summary_unavailable_defaults_witness :
    ((none : Option SummaryResponse).bind SummaryResponse.data).bind
        SummaryData.released = none ∧
    (stepFetch (fun _ => none) 0 (.summarySuccess none)
        initialState).paymentsReleased = 0 :=
  ⟨rfl,
    (summary_unavailable_defaults (fun _ => none) 0 initialState none none none).1 rfl⟩

/-! ## Claim C10 -/

/-- Counterexample to claim C10 as stated: the loading indicator is a
single `useState` flag (line 159) shared by all three tables — after
the SLA fetch starts (`loading := true`), the *aging* fetch completing
flips the flag to `false`, changing what the SLA table's loading
indicator shows even though the SLA fetch has not completed. -/
theorem shared_loading_flag_counterexample :
    slaLoadingIndicator (stepFetch (fun _ => none) 0 .slaStart initialState) = true ∧
    slaLoadingIndicator
      (stepFetch (fun _ => none) 0 (.agingSuccess (some ⟨some []⟩))
        (stepFetch (fun _ => none) 0 .slaStart initialState)) = false :=
  ⟨rfl, rfl⟩

/-- Claim C10 (amended): a fetch start or completion for one dataset
never touches any other dataset's rows, any filter slot, or any
pagination cursor; the summary fetch touches only its two metric
fields; but the loading indicator is one flag shared by the three
tables — every table-fetch start sets it and every table-fetch
completion clears it. -/
theorem fetch_events_frame (parse : String → Option Int) (now : Int)
    (s : ReportsState) :
    (∀ resp,
      (stepFetch parse now (.agingSuccess resp) s).complianceData = s.complianceData ∧
      (stepFetch parse now (.agingSuccess resp) s).slaBreachData = s.slaBreachData ∧
      filtersOf (stepFetch parse now (.agingSuccess resp) s) = filtersOf s ∧
      pagesOf (stepFetch parse now (.agingSuccess resp) s) = pagesOf s ∧
      (stepFetch parse now (.agingSuccess resp) s).loading = false) ∧
    (∀ resp,
      (stepFetch parse now (.complianceSuccess resp) s).agingData = s.agingData ∧
      (stepFetch parse now (.complianceSuccess resp) s).slaBreachData = s.slaBreachData ∧
      filtersOf (stepFetch parse now (.complianceSuccess resp) s) = filtersOf s ∧
      pagesOf (stepFetch parse now (.complianceSuccess resp) s) = pagesOf s ∧
      (stepFetch parse now (.complianceSuccess resp) s).loading = false) ∧
    (∀ resp,
      (stepFetch parse now (.slaSuccess resp) s).agingData = s.agingData ∧
      (stepFetch parse now (.slaSuccess resp) s).complianceData = s.complianceData ∧
      filtersOf (stepFetch parse now (.slaSuccess resp) s) = filtersOf s ∧
      pagesOf (stepFetch parse now (.slaSuccess resp) s) = pagesOf s ∧
      (stepFetch parse now (.slaSuccess resp) s).loading = false) ∧
    (∀ resp,
      (stepFetch parse now (.summarySuccess resp) s).agingData = s.agingData ∧
      (stepFetch parse now (.summarySuccess resp) s).complianceData = s.complianceData ∧
      (stepFetch parse now (.summarySuccess resp) s).slaBreachData = s.slaBreachData ∧
      filtersOf (stepFetch parse now (.summarySuccess resp) s) = filtersOf s ∧
      pagesOf (stepFetch parse now (.summarySuccess resp) s) = pagesOf s ∧
      (stepFetch parse now (.summarySuccess resp) s).loading = s.loading) ∧
    stepFetch parse now .agingStart s = { s with loading := true } ∧
    stepFetch parse now .complianceStart s = { s with loading := true } ∧
    stepFetch parse now .slaStart s = { s with loading := true } ∧
    stepFetch parse now .agingFailure s = { s with loading := false } ∧
    stepFetch parse now .complianceFailure s = { s with loading := false } ∧
    stepFetch parse now .slaFailure s = { s with loading := false } := by
  exact ⟨fun resp => ⟨rfl, rfl, rfl, rfl, rfl⟩,
    fun resp => ⟨rfl, rfl, rfl, rfl, rfl⟩,
    fun resp => ⟨rfl, rfl, rfl, rfl, rfl⟩,
    fun resp => ⟨rfl, rfl, rfl, rfl, rfl, rfl⟩,
    rfl, rfl, rfl, rfl, rfl, rfl⟩

/-! ## Claim C6 -/

theorem parseCSVAux_raw : ∀ (s rest field : List Char) (record : List (List Char)),
    (∀ c ∈ s, c ≠ ',' ∧ c ≠ '"' ∧ c ≠ '\n') →
    parseCSVAux false (s ++ rest) field record =
      parseCSVAux false rest (field ++ s) record
  | [], rest, field, record, _ => by simp
  | c :: cs, rest, field, record, h => by
    have hc := h c (by simp)
    have ih := parseCSVAux_raw cs rest (field ++ [c]) record
      (fun x hx => h x (by simp [hx]))
    simp only [List.cons_append, parseCSVAux, hc.1, hc.2.1, hc.2.2, if_false,
      decide_eq_true_eq, Bool.false_and, Bool.and_eq_true, decide_eq_true_iff]
    rw [if_neg (by simp)]
    rw [ih]
    simp

theorem parseCSVAux_quoted : ∀ (s rest field : List Char) (record : List (List Char)),
    (rest = [] ∨ ∃ c r, rest = c :: r ∧ c ≠ '"') →
    parseCSVAux true (doubleQuotes s ++ '"' :: rest) field record =
      parseCSVAux false rest (field ++ s) record
  | [], rest, field, record, hrest => by
    rcases hrest with rfl | ⟨c, r, rfl, hc⟩
    · simp [doubleQuotes, parseCSVAux]
    · simp [doubleQuotes, parseCSVAux, hc]
  | a :: t, rest, field, record, hrest => by
    have ih1 := parseCSVAux_quoted t rest (field ++ ['"']) record hrest
    have ih2 := parseCSVAux_quoted t rest (field ++ [a]) record hrest
    by_cases ha : a = '"'
    · subst ha
      have hdq : doubleQuotes ('"' :: t) = '"' :: '"' :: doubleQuotes t := by
        simp [doubleQuotes]
      rw [hdq]
      simp only [List.cons_append, parseCSVAux]
      rw [ih1]
      simp
    · have hdq : doubleQuotes (a :: t) = a :: doubleQuotes t := by
        simp [doubleQuotes, ha]
      rw [hdq]
      simp only [List.cons_append]
      rw [show parseCSVAux true (a :: (doubleQuotes t ++ '"' :: rest)) field record =
        parseCSVAux true (doubleQuotes t ++ '"' :: rest) (field ++ [a]) record from by
          simp [parseCSVAux, ha]]
      rw [ih2]
      simp

theorem escapeCSV_parse (s rest : List Char) (record : List (List Char))
    (hrest : rest = [] ∨ (∃ r, rest = ',' :: r) ∨ (∃ r, rest = '\n' :: r)) :
    parseCSVAux false (escapeCSV s ++ rest) [] record =
      parseCSVAux false rest s record := by
  by_cases hesc : (s.contains ',' || s.contains '"' || s.contains '\n') = true
  · have he : escapeCSV s = '"' :: (doubleQuotes s ++ ['"']) := by
      unfold escapeCSV
      rw [if_pos hesc]
    have hq : rest = [] ∨ ∃ c r, rest = c :: r ∧ c ≠ '"' := by
      rcases hrest with rfl | ⟨r, rfl⟩ | ⟨r, rfl⟩
      · exact Or.inl rfl
      · exact Or.inr ⟨',', r, rfl, by decide⟩
      · exact Or.inr ⟨'\n', r, rfl, by decide⟩
    rw [he]
    rw [show ('"' :: (doubleQuotes s ++ ['"'])) ++ rest =
      '"' :: (doubleQuotes s ++ '"' :: rest) from by simp]
    rw [show parseCSVAux false ('"' :: (doubleQuotes s ++ '"' :: rest)) [] record =
      parseCSVAux true (doubleQuotes s ++ '"' :: rest) [] record from by
        simp [parseCSVAux]]
    rw [parseCSVAux_quoted s rest [] record hq]
    simp
  · have he : escapeCSV s = s := by
      unfold escapeCSV
      rw [if_neg hesc]
    rw [he]
    have hno : ∀ c ∈ s, c ≠ ',' ∧ c ≠ '"' ∧ c ≠ '\n' := by
      intro c hcin
      simp only [Bool.or_eq_true, not_or] at hesc
      refine ⟨?_, ?_, ?_⟩ <;> rintro rfl
      · exact hesc.1.1 (List.elem_iff.mpr hcin)
      · exact hesc.1.2 (List.elem_iff.mpr hcin)
      · exact hesc.2 (List.elem_iff.mpr hcin)
    have h := parseCSVAux_raw s rest [] record hno
    simpa using h

theorem intercalate_sep_cons_cons (sep x y : List Char) (l : List (List Char)) :
    List.intercalate sep (x :: y :: l) = x ++ sep ++ List.intercalate sep (y :: l) := by
  simp [List.intercalate, List.intersperse]

theorem csvLine_cons_cons (c c2 : List Char) (cs : List (List Char)) :
    csvLine (c :: c2 :: cs) = escapeCSV c ++ ',' :: csvLine (c2 :: cs) := by
  simp [csvLine, intercalate_sep_cons_cons]

theorem csvLine_singleton (c : List Char) : csvLine [c] = escapeCSV c := by
  simp [csvLine, List.intercalate]

theorem csvLine_parse_nil : ∀ (cells : List (List Char)) (record : List (List Char)),
    cells ≠ [] →
    parseCSVAux false (csvLine cells) [] record = [record ++ cells]
  | [], _, h => absurd rfl h
  | [c], record, _ => by
    rw [csvLine_singleton, show escapeCSV c = escapeCSV c ++ [] from by simp,
      escapeCSV_parse c [] record (Or.inl rfl)]
    simp [parseCSVAux]
  | c :: c2 :: cs, record, _ => by
    have ih := csvLine_parse_nil (c2 :: cs) (record ++ [c]) (by simp)
    rw [csvLine_cons_cons,
      escapeCSV_parse c (',' :: csvLine (c2 :: cs)) record (Or.inr (Or.inl ⟨_, rfl⟩))]
    rw [show parseCSVAux false (',' :: csvLine (c2 :: cs)) c record =
      parseCSVAux false (csvLine (c2 :: cs)) [] (record ++ [c]) from by
        simp [parseCSVAux]]
    rw [ih]
    simp

theorem csvLine_parse_newline : ∀ (cells : List (List Char)) (r : List Char)
    (record : List (List Char)), cells ≠ [] →
    parseCSVAux false (csvLine cells ++ '\n' :: r) [] record =
      (record ++ cells) :: parseCSVAux false r [] []
  | [], _, _, h => absurd rfl h
  | [c], r, record, _ => by
    rw [csvLine_singleton,
      escapeCSV_parse c ('\n' :: r) record (Or.inr (Or.inr ⟨_, rfl⟩))]
    simp [parseCSVAux]
  | c :: c2 :: cs, r, record, _ => by
    have ih := csvLine_parse_newline (c2 :: cs) r (record ++ [c]) (by simp)
    rw [csvLine_cons_cons]
    rw [show (escapeCSV c ++ ',' :: csvLine (c2 :: cs)) ++ '\n' :: r =
      escapeCSV c ++ ',' :: (csvLine (c2 :: cs) ++ '\n' :: r) from by simp]
    rw [escapeCSV_parse c (',' :: (csvLine (c2 :: cs) ++ '\n' :: r)) record
      (Or.inr (Or.inl ⟨_, rfl⟩))]
    rw [show parseCSVAux false (',' :: (csvLine (c2 :: cs) ++ '\n' :: r)) c record =
      parseCSVAux false (csvLine (c2 :: cs) ++ '\n' :: r) [] (record ++ [c]) from by
        simp [parseCSVAux]]
    rw [ih]
    simp

theorem parseCSV_intercalate : ∀ (recs : List (List (List Char))),
    (∀ rec ∈ recs, rec ≠ []) → recs ≠ [] →
    parseCSVAux false (List.intercalate ['\n'] (recs.map csvLine)) [] [] = recs
  | [], _, h => absurd rfl h
  | [rec], hr, _ => by
    have h1 : List.intercalate ['\n'] ([rec].map csvLine) = csvLine rec := by
      simp [List.intercalate]
    rw [h1, csvLine_parse_nil rec [] (hr rec (by simp))]
    simp
  | rec :: r2 :: rs, hr, _ => by
    have ih := parseCSV_intercalate (r2 :: rs) (fun x hx => hr x (by simp [hx]))
      (by simp)
    have h1 : List.intercalate ['\n'] ((rec :: r2 :: rs).map csvLine) =
        csvLine rec ++ '\n' :: List.intercalate ['\n'] ((r2 :: rs).map csvLine) := by
      rw [List.map_cons, List.map_cons, intercalate_sep_cons_cons]
      simp
    rw [h1, csvLine_parse_newline rec _ [] (hr rec (by simp)), ih]
    simp

theorem csvRecordLine_eq (headers : List (List Char)) (row : CsvRow) :
    csvRecordLine headers row = csvLine (rowCells headers row) := by
  simp [csvRecordLine, csvLine, rowCells, List.map_map, Function.comp_def]

theorem toCSV_eq_intercalate (rows : List CsvRow) (hdrs : List (List Char))
    (hrows : rows ≠ []) (hne : hdrs ≠ [])
    (hclean : ∀ h ∈ hdrs, h.contains ',' = false ∧ h.contains '"' = false ∧
      h.contains '\n' = false) :
    toCSV rows hdrs =
      List.intercalate ['\n'] ((hdrs :: rows.map (rowCells hdrs)).map csvLine) := by
  have hmap : hdrs.map escapeCSV = hdrs := by
    have h1 : hdrs.map escapeCSV = hdrs.map id :=
      List.map_congr_left (fun a ha => by
        have hc := hclean a ha
        unfold escapeCSV
        rw [if_neg (by simp only [hc.1, hc.2.1, hc.2.2]; simp)]
        rfl)
    simpa using h1
  have hh : csvHeaders rows hdrs = hdrs := by
    unfold csvHeaders
    rw [if_neg (by simpa using hne)]
  have hrl : rows.map (csvRecordLine hdrs) = (rows.map (rowCells hdrs)).map csvLine := by
    rw [List.map_map]
    exact List.map_congr_left (fun r _ => csvRecordLine_eq hdrs r)
  unfold toCSV
  rw [if_neg (by simpa using hrows)]
  simp only [hh]
  rw [show List.intercalate [','] hdrs = csvLine hdrs from by
    unfold csvLine; rw [hmap]]
  rw [hrl, List.map_cons]

/-- Claim C6 (confirmed): serializing any row set under an explicit
header order whose names are free of the delimiter, quote and newline,
then re-parsing with the same delimiter/quote rules, reconstructs
exactly the stringified field values of every row (null/undefined
having become the empty string) — including values containing commas,
quotes and newlines. -/
theorem csv_round_trip (rows : List CsvRow) (hdrs : List (List Char))
    (hrows : rows ≠ []) (hne : hdrs ≠ [])
    (hclean : ∀ h ∈ hdrs, h.contains ',' = false ∧ h.contains '"' = false ∧
      h.contains '\n' = false) :
    parseCSV (toCSV rows hdrs) = hdrs :: rows.map (rowCells hdrs) := by
  rw [toCSV_eq_intercalate rows hdrs hrows hne hclean]
  unfold parseCSV
  apply parseCSV_intercalate
  · intro rec hrec
    rcases List.mem_cons.mp hrec with rfl | hmem
    · exact hne
    · rcases List.mem_map.mp hmem with ⟨r, _, rfl⟩
      simp [rowCells]
      exact hne
  · simp

/-- Witness for `csv_round_trip` on a one-column row set whose single
value contains a comma, a quote and a newline. -/
theorem csv_round_trip_witness :
    (([[(['h'], some [',', '"', '\n'])]] : List CsvRow) ≠ [] ∧
      ([['h']] : List (List Char)) ≠ [] ∧
      (∀ h ∈ ([['h']] : List (List Char)), h.contains ',' = false ∧
        h.contains '"' = false ∧ h.contains '\n' = false)) ∧
    parseCSV (toCSV [[(['h'], some [',', '"', '\n'])]] [['h']]) =
      [['h']] :: ([[(['h'], some [',', '"', '\n'])]] : List CsvRow).map (rowCells [['h']]) :=
  ⟨⟨by decide, by decide, by decide⟩,
    csv_round_trip _ _ (by decide) (by decide) (by decide)⟩

/-! ## Claim C7 -/

theorem toCSV_cons (r : CsvRow) (rs : List CsvRow) (hdrs : List (List Char)) :
    toCSV (r :: rs) hdrs =
      List.intercalate ['\n']
        ((List.intercalate [','] (csvHeaders (r :: rs) hdrs)) ::
          (r :: rs).map (csvRecordLine (csvHeaders (r :: rs) hdrs))) := rfl

/-- Claim C7 (confirmed): the delimited-text export is the empty string
exactly when the filtered row sequence is empty; for a non-empty row
sequence it is the header line followed by one record line per row,
joined by newlines. -/
theorem toCSV_structure (rows : List CsvRow) (hdrs : List (List Char)) :
    (toCSV rows hdrs = [] ↔ rows = []) ∧
    (rows ≠ [] →
      toCSV rows hdrs =
        List.intercalate ['\n']
          ((List.intercalate [','] (csvHeaders rows hdrs)) ::
            rows.map (csvRecordLine (csvHeaders rows hdrs)))) := by
  constructor
  · constructor
    · intro h
      rcases rows with _ | ⟨r, rs⟩
      · rfl
      · exfalso
        rw [toCSV_cons, List.map_cons, intercalate_sep_cons_cons] at h
        simp at h
    · rintro rfl
      rfl
  · intro hr
    rcases rows with _ | ⟨r, rs⟩
    · exact absurd rfl hr
    · exact toCSV_cons r rs hdrs

/-- Witness for `toCSV_structure` on a one-row dataset. -/
theorem toCSV_structure_witness :
    (([[(['h'], some ['v'])]] : List CsvRow) ≠ []) ∧
    toCSV [[(['h'], some ['v'])]] [['h']] =
      List.intercalate ['\n']
        ((List.intercalate [','] (csvHeaders [[(['h'], some ['v'])]] [['h']])) ::
          ([[(['h'], some ['v'])]] : List CsvRow).map
            (csvRecordLine (csvHeaders [[(['h'], some ['v'])]] [['h']]))) :=
  ⟨by decide, (toCSV_structure _ _).2 (by decide)⟩
